import Mathlib

/-!
Verification of the `LambdaConfig` configuration resolver from
`deps/crimsoncore/lib/crimsoncore/lambda_config.py`.

The Python class resolves named configuration values through a priority
chain (caller-specific override → global override → environment → built-in
default → per-call fallback), validates enumerated values, coerces
booleans, memoizes derived getters per instance, and builds three families
of identifier strings (legacy dash-joined SSM names, hierarchical
slash-joined SSM names, dash-joined bucket names).

Mappings are modelled as association lists (first binding wins, like a
Python dict snapshot), strings as Lean `String` over the ASCII subset the
program manipulates, and raised `ValueError`s as an explicit error type.
-/

set_option autoImplicit false

namespace CrimsonCore

/-- The three error shapes raised by `LambdaConfig` (all `ValueError` in
Python, distinguished by their message). -/
inductive ConfigError where
  | missingConfiguration (name : String)
  | invalidConfigurationValue (name : String) (accepted : List String)
  | invalidState (msg : String)
deriving DecidableEq, Repr

/-- First-match association-list lookup; models `name in dict` /
`dict.get(name)` on a dict snapshot. -/
def alistFind {β : Type} (k : String) : List (String × β) → Option β
  | [] => none
  | (k2, v) :: rest => if k2 = k then some v else alistFind k rest

/-- Membership in a tuple of strings, models Python `value in (...)`. -/
def memStr (v : String) : List String → Bool
  | [] => false
  | x :: xs => if v = x then true else memStr v xs

/-- ASCII lower-casing of one character; models `str.lower` on the ASCII
strings the program uses. -/
def pyLowerChar (c : Char) : Char :=
  if 65 ≤ c.toNat ∧ c.toNat ≤ 90 then Char.ofNat (c.toNat + 32) else c

/-- ASCII lower-casing, models Python `str.lower()`. -/
def pyLower (s : String) : String := ⟨s.data.map pyLowerChar⟩

/-- Python `sep.join(chunks)`. -/
def joinChunks (sep : String) : List String → String
  | [] => ""
  | [x] => x
  | x :: y :: rest => x ++ sep ++ joinChunks sep (y :: rest)

/-- The `self._defaults` mapping built in `LambdaConfig.__init__`. -/
def defaults : List (String × String) :=
  [("APPLICATION_NAME", ""),
   ("DEBUG_MODE", "off"),
   ("ENVIRONMENT", ""),
   ("GLOBAL_PREFIX", ""),
   ("LOG_PATH", "../logs/"),
   ("LOG_ARCHIVE_MODE", "stdout"),
   ("SAFE_MODE", "off"),
   ("STACK_NAME", "")]

/-- The `self._validations` mapping built in `LambdaConfig.__init__`. -/
def validationsMap : List (String × List String) :=
  [("DEBUG_MODE", ["on", "off", "true", "false", "yes", "no"]),
   ("ENABLE_NOTIFICATIONS", ["on", "off", "true", "false", "yes", "no"]),
   ("FIPS_MODE", ["on", "off", "true", "false", "yes", "no"]),
   ("LOG_ARCHIVE_MODE", ["s3", "stdout"]),
   ("SAFE_MODE", ["on", "off", "true", "false", "yes", "no"])]

/-- The constructor arguments of `LambdaConfig` (caller identity `name`,
environment snapshot `env`, global `overrides`, caller-specific
`lambda_overrides`). -/
structure LambdaConfig where
  script_name : String
  overrides : List (String × String)
  lambda_overrides : List (String × List (String × String))
  env : List (String × String)
deriving DecidableEq, Repr

namespace LambdaConfig

/-- `LambdaConfig._get_val`: the priority-chain lookup, with the per-call
`default_override` fallback used only when non-null. -/
def get_val (c : LambdaConfig) (name : String) (default_override : Option String) :
    Except ConfigError String :=
  match (alistFind c.script_name c.lambda_overrides).bind (fun m => alistFind name m) with
  | some v => Except.ok v
  | none =>
    match alistFind name c.overrides with
    | some v => Except.ok v
    | none =>
      match alistFind name c.env with
      | some v => Except.ok v
      | none =>
        match alistFind name defaults with
        | some v => Except.ok v
        | none =>
          match default_override with
          | some v => Except.ok v
          | none => Except.error (ConfigError.missingConfiguration name)

/-- `LambdaConfig._validate_val`: enumerated-domain validation. -/
def validate_val (name value : String) : Except ConfigError Unit :=
  match alistFind name validationsMap with
  | some vals =>
    if memStr value vals then Except.ok () else
      Except.error (ConfigError.invalidConfigurationValue name vals)
  | none => Except.ok ()

/-- Python `value in ('on', 'true', 'yes')`, the boolean-coercion test in
`LambdaConfig.val`. -/
def coerce_bool (v : String) : Bool :=
  if v = "on" ∨ v = "true" ∨ v = "yes" then true else false

/-- `LambdaConfig.val` up to but not including the boolean coercion: the
resolved value, lower-cased when `to_lower or bool_coerce`, after
enumerated-domain validation.  (In Python the coercion step changes the
value's type to `bool`; it is applied on top of this in `val`.) -/
def val_str (c : LambdaConfig) (name : String) (to_lower bool_coerce : Bool)
    (default_override : Option String) : Except ConfigError String :=
  match c.get_val name default_override with
  | Except.error e => Except.error e
  | Except.ok v0 =>
    let v := if to_lower || bool_coerce then pyLower v0 else v0
    match validate_val name v with
    | Except.error e => Except.error e
    | Except.ok _ => Except.ok v

/-- The dynamic result type of `LambdaConfig.val`: a string, or a boolean
when `bool_coerce` was requested. -/
inductive ConfigValue where
  | str (s : String)
  | bool (b : Bool)
deriving DecidableEq, Repr

/-- `LambdaConfig.val`: resolve, optionally lower-case, validate, and
optionally coerce to boolean. -/
def val (c : LambdaConfig) (name : String) (to_lower bool_coerce : Bool)
    (default_override : Option String) : Except ConfigError ConfigValue :=
  match c.val_str name to_lower bool_coerce default_override with
  | Except.error e => Except.error e
  | Except.ok v =>
    Except.ok (if bool_coerce then ConfigValue.bool (coerce_bool v) else ConfigValue.str v)

/-- `get_application_name` resolution (`val('APPLICATION_NAME', to_lower=True)`). -/
def get_application_name (c : LambdaConfig) : Except ConfigError String :=
  c.val_str "APPLICATION_NAME" true false none

/-- `get_debug_mode` resolution (`val('DEBUG_MODE', bool_coerce=True)`). -/
def get_debug_mode (c : LambdaConfig) : Except ConfigError Bool :=
  match c.val_str "DEBUG_MODE" false true none with
  | Except.error e => Except.error e
  | Except.ok v => Except.ok (coerce_bool v)

/-- `get_log_path` resolution (`val('LOG_PATH')`). -/
def get_log_path (c : LambdaConfig) : Except ConfigError String :=
  c.val_str "LOG_PATH" false false none

/-- `get_safe_mode` resolution (`val('SAFE_MODE', bool_coerce=True)`). -/
def get_safe_mode (c : LambdaConfig) : Except ConfigError Bool :=
  match c.val_str "SAFE_MODE" false true none with
  | Except.error e => Except.error e
  | Except.ok v => Except.ok (coerce_bool v)

/-- `get_aws_region` resolution (`val('AWS_REGION', to_lower=True)`). -/
def get_aws_region (c : LambdaConfig) : Except ConfigError String :=
  c.val_str "AWS_REGION" true false none

/-- Truth of `re.search('^us-gov-(?:west|east)-[\\d]+$', region)`: the whole
string is `us-gov-west-` or `us-gov-east-` followed by one or more digits. -/
def isGovRegion (s : String) : Bool :=
  let tailDigits (pre : String) : Bool :=
    let rest := s.data.drop pre.data.length
    if s.data.take pre.data.length = pre.data ∧ rest ≠ [] ∧ rest.all Char.isDigit
    then true else false
  tailDigits "us-gov-west-" || tailDigits "us-gov-east-"

/-- `get_fips_mode` resolution: resolve the region, auto-detect GovCloud,
then resolve `FIPS_MODE` with the detected value as per-call fallback. -/
def get_fips_mode (c : LambdaConfig) : Except ConfigError Bool :=
  match c.get_aws_region with
  | Except.error e => Except.error e
  | Except.ok aws_region =>
    let in_gov_cloud := isGovRegion aws_region
    match c.val_str "FIPS_MODE" false true (some (if in_gov_cloud then "on" else "off")) with
    | Except.error e => Except.error e
    | Except.ok v => Except.ok (coerce_bool v)

/-- `get_global_prefix` resolution (`val('GLOBAL_PREFIX', to_lower=True)`). -/
def get_global_pfx (c : LambdaConfig) : Except ConfigError String :=
  c.val_str "GLOBAL_PREFIX" true false none

/-- `get_environment` resolution (`val('ENVIRONMENT', to_lower=True)`). -/
def get_environment (c : LambdaConfig) : Except ConfigError String :=
  c.val_str "ENVIRONMENT" true false none

/-- `get_stack_name` resolution (`val('STACK_NAME', to_lower=True)`). -/
def get_stack_name (c : LambdaConfig) : Except ConfigError String :=
  c.val_str "STACK_NAME" true false none

/-- `get_log_archive_mode` resolution (`val('LOG_ARCHIVE_MODE', to_lower=True)`). -/
def get_log_archive_mode (c : LambdaConfig) : Except ConfigError String :=
  c.val_str "LOG_ARCHIVE_MODE" true false none

/-- `get_log_kms_key_id` resolution: forbidden unless the archive mode is
`s3`, else `val('LOG_KMS_KEY_ID')`. -/
def get_log_kms_key_id (c : LambdaConfig) : Except ConfigError String :=
  match c.get_log_archive_mode with
  | Except.error e => Except.error e
  | Except.ok m =>
    if m ≠ "s3" then
      Except.error (ConfigError.invalidState
        "log_kms_key_id cannot be used when log_archive_mode is not \"s3\"")
    else c.val_str "LOG_KMS_KEY_ID" false false none

/-- `get_notification_arn` resolution (`val('NOTIFICATION_ARN')`). -/
def get_notification_arn (c : LambdaConfig) : Except ConfigError String :=
  c.val_str "NOTIFICATION_ARN" false false none

/-- One optional segment of an identifier: when its inclusion flag is set,
resolve the getter and keep the value only when non-empty (mirrors
`if include_x and len(self.get_x()) > 0: name_chunks.append(self.get_x())`,
where the second getter call returns the same pure value). -/
def segIf (flag : Bool) (g : Except ConfigError String) :
    Except ConfigError (List String) :=
  if flag then
    match g with
    | Except.error e => Except.error e
    | Except.ok v => Except.ok (if 0 < v.length then [v] else [])
  else Except.ok []

/-- `build_legacy_ssm_param_name`. -/
def build_legacy_ssm_param_name (c : LambdaConfig) (name : String)
    (include_global_pfx include_application_name include_environment include_stack_name : Bool) :
    Except ConfigError String :=
  match segIf include_global_pfx c.get_global_pfx with
  | Except.error e => Except.error e
  | Except.ok l1 =>
    match segIf include_application_name c.get_application_name with
    | Except.error e => Except.error e
    | Except.ok l2 =>
      match segIf include_environment c.get_environment with
      | Except.error e => Except.error e
      | Except.ok l3 =>
        match segIf include_stack_name c.get_stack_name with
        | Except.error e => Except.error e
        | Except.ok l4 =>
          Except.ok (joinChunks "-" (l1 ++ l2 ++ l3 ++ l4 ++ ["ssm", name]))

/-- The final chunks of a hierarchical name: `['ssm', name]`, or a single
empty chunk (producing the trailing `/`) when `name` is `None`. -/
def hierTail : Option String → List String
  | some n => ["ssm", n]
  | none => [""]

/-- `build_ssm_param_name` (hierarchical): leading empty chunk, then the
optional segments, then `ssm`/`name` — or a trailing empty chunk when
`name` is `None`. -/
def build_ssm_param_name (c : LambdaConfig) (name : Option String)
    (include_global_pfx include_application_name include_environment include_stack_name : Bool) :
    Except ConfigError String :=
  match segIf include_global_pfx c.get_global_pfx with
  | Except.error e => Except.error e
  | Except.ok l1 =>
    match segIf include_application_name c.get_application_name with
    | Except.error e => Except.error e
    | Except.ok l2 =>
      match segIf include_environment c.get_environment with
      | Except.error e => Except.error e
      | Except.ok l3 =>
        match segIf include_stack_name c.get_stack_name with
        | Except.error e => Except.error e
        | Except.ok l4 =>
          Except.ok (joinChunks "/" ("" :: (l1 ++ l2 ++ l3 ++ l4 ++ hierTail name)))

/-- `build_bucket_name`. -/
def build_bucket_name (c : LambdaConfig) (name : String)
    (include_global_pfx include_application_name include_environment : Bool) :
    Except ConfigError String :=
  match segIf include_global_pfx c.get_global_pfx with
  | Except.error e => Except.error e
  | Except.ok l1 =>
    match segIf include_application_name c.get_application_name with
    | Except.error e => Except.error e
    | Except.ok l2 =>
      match segIf include_environment c.get_environment with
      | Except.error e => Except.error e
      | Except.ok l3 =>
        Except.ok (joinChunks "-" (l1 ++ l2 ++ l3 ++ [name]))

/-- `get_log_bucket_name` resolution: `LOG_BUCKET_NAME` lower-cased, with
`build_bucket_name('logs')` (default flags `True, True, False`) as the
per-call fallback, which Python computes before the lookup. -/
def get_log_bucket_name (c : LambdaConfig) : Except ConfigError String :=
  match c.build_bucket_name "logs" true true false with
  | Except.error e => Except.error e
  | Except.ok bn => c.val_str "LOG_BUCKET_NAME" true false (some bn)

end LambdaConfig

instance {ε α : Type} [DecidableEq ε] [DecidableEq α] : DecidableEq (Except ε α) := fun a b =>
  match a, b with
  | Except.ok x, Except.ok y =>
    if h : x = y then isTrue (by rw [h]) else isFalse (fun hc => h (Except.ok.inj hc))
  | Except.error x, Except.error y =>
    if h : x = y then isTrue (by rw [h]) else isFalse (fun hc => h (Except.error.inj hc))
  | Except.ok _, Except.error _ => isFalse (fun hc => Except.noConfusion hc)
  | Except.error _, Except.ok _ => isFalse (fun hc => Except.noConfusion hc)

/-! ## Specification-side formulations

The definitions below follow the wording of the specification (an ordered
list of lookup strategies tried in turn; identifier formulas such as
`{prefix-}{app-}{env-}{stack-}ssm-name`).  They are compared with the
source-derived definitions above by the claim theorems. -/

/-- The ordered configuration sources of the spec: caller-specific
override, global override, environment, built-in defaults (the per-call
fallback is handled separately, after the chain). -/
def sourceList (c : LambdaConfig) : List (String → Option String) :=
  [fun n => (alistFind c.script_name c.lambda_overrides).bind (fun m => alistFind n m),
   fun n => alistFind n c.overrides,
   fun n => alistFind n c.env,
   fun n => alistFind n defaults]

/-- Try an ordered list of lookup strategies until one hits. -/
def firstHit : List (String → Option String) → String → Option String
  | [], _ => none
  | f :: rest, n =>
    match f n with
    | some v => some v
    | none => firstHit rest n

/-- The value of `name` in the highest-priority source containing it
(ignoring the per-call fallback). -/
def sourceLookup (c : LambdaConfig) (name : String) : Option String :=
  firstHit (sourceList c) name

/-- The optional identifier segments that actually appear: those whose
inclusion flag is set and whose resolved value is non-empty, in the given
order. -/
def selectedSegs : List (Bool × String) → List String
  | [] => []
  | (f, v) :: rest => (if f ∧ 0 < v.length then [v] else []) ++ selectedSegs rest

/-- Each segment followed by the separator, concatenated:
`foldSep "-" [p, a] = "p-a-"`. -/
def foldSep (sep : String) (segs : List String) : String :=
  segs.foldr (fun s acc => s ++ sep ++ acc) ""

/-- The spec formula for legacy SSM names:
`{prefix-}{app-}{env-}{stack-}ssm-name`. -/
def legacyNameFromSpec (segs : List String) (name : String) : String :=
  foldSep "-" segs ++ "ssm-" ++ name

/-- The spec formula for hierarchical SSM names:
`/{prefix/}{app/}{env/}{stack/}ssm/name`, or
`/{prefix/}{app/}{env/}{stack/}` when `name` is omitted. -/
def hierNameFromSpec (segs : List String) : Option String → String
  | some n => "/" ++ foldSep "/" segs ++ "ssm/" ++ n
  | none => "/" ++ foldSep "/" segs

/-- The spec formula for bucket names: `{prefix-}{app-}{env-}name`. -/
def bucketNameFromSpec (segs : List String) (name : String) : String :=
  foldSep "-" segs ++ name

/-! ## Stateful model of the per-instance memoization

A `LambdaConfig` instance carries one mutable cache slot per derived
getter (`self.application_name = None`, ... in `__init__`), filled on
first access.  Each getter below is the cache-check / compute / store
pattern of the Python methods, as explicit state passing. -/

/-- A `LambdaConfig` instance: the constructor inputs plus the per-getter
cache slots initialized to `None`. -/
structure ConfigState where
  config : LambdaConfig
  application_name : Option String
  debug_mode : Option Bool
  log_level : Option Nat
  log_path : Option String
  safe_mode : Option Bool
  fips_mode : Option Bool
  log_archive_mode : Option String
  aws_region : Option String
  log_bucket : Option String
  log_kms_key_id : Option String
  global_pfx : Option String
  environment : Option String
  stack_name : Option String
  notification_arn : Option String
deriving DecidableEq, Repr

/-- A freshly constructed instance: every cache slot is `None`. -/
def initState (c : LambdaConfig) : ConfigState :=
  ⟨c, none, none, none, none, none, none, none, none, none, none, none, none, none, none⟩

/-- The lazy-cache pattern shared by all derived getters: return the
cached value if present, else compute and store it. -/
def memoize {α : Type} (read : ConfigState → Option α)
    (write : ConfigState → α → ConfigState)
    (compute : ConfigState → Except ConfigError (α × ConfigState))
    (s : ConfigState) : Except ConfigError (α × ConfigState) :=
  match read s with
  | some v => Except.ok (v, s)
  | none =>
    match compute s with
    | Except.ok (v, s1) => Except.ok (v, write s1 v)
    | Except.error e => Except.error e

/-- Memoized `get_application_name`. -/
def get_application_nameS : ConfigState → Except ConfigError (String × ConfigState) :=
  memoize (fun s => s.application_name)
    (fun s v => { s with application_name := some v })
    (fun s =>
      match s.config.val_str "APPLICATION_NAME" true false none with
      | Except.ok v => Except.ok (v, s)
      | Except.error e => Except.error e)

/-- Memoized `get_debug_mode`. -/
def get_debug_modeS : ConfigState → Except ConfigError (Bool × ConfigState) :=
  memoize (fun s => s.debug_mode)
    (fun s v => { s with debug_mode := some v })
    (fun s =>
      match s.config.val_str "DEBUG_MODE" false true none with
      | Except.ok v => Except.ok (LambdaConfig.coerce_bool v, s)
      | Except.error e => Except.error e)

/-- Memoized `get_log_level` (`logging.DEBUG = 10`, `logging.INFO = 20`). -/
def get_log_levelS : ConfigState → Except ConfigError (Nat × ConfigState) :=
  memoize (fun s => s.log_level)
    (fun s v => { s with log_level := some v })
    (fun s =>
      match get_debug_modeS s with
      | Except.ok (b, s1) => Except.ok ((if b then 10 else 20), s1)
      | Except.error e => Except.error e)

/-- Memoized `get_log_path`. -/
def get_log_pathS : ConfigState → Except ConfigError (String × ConfigState) :=
  memoize (fun s => s.log_path)
    (fun s v => { s with log_path := some v })
    (fun s =>
      match s.config.val_str "LOG_PATH" false false none with
      | Except.ok v => Except.ok (v, s)
      | Except.error e => Except.error e)

/-- Memoized `get_safe_mode`. -/
def get_safe_modeS : ConfigState → Except ConfigError (Bool × ConfigState) :=
  memoize (fun s => s.safe_mode)
    (fun s v => { s with safe_mode := some v })
    (fun s =>
      match s.config.val_str "SAFE_MODE" false true none with
      | Except.ok v => Except.ok (LambdaConfig.coerce_bool v, s)
      | Except.error e => Except.error e)

/-- Memoized `get_aws_region`. -/
def get_aws_regionS : ConfigState → Except ConfigError (String × ConfigState) :=
  memoize (fun s => s.aws_region)
    (fun s v => { s with aws_region := some v })
    (fun s =>
      match s.config.val_str "AWS_REGION" true false none with
      | Except.ok v => Except.ok (v, s)
      | Except.error e => Except.error e)

/-- Memoized `get_fips_mode` (resolves the region through the memoized
region getter first). -/
def get_fips_modeS : ConfigState → Except ConfigError (Bool × ConfigState) :=
  memoize (fun s => s.fips_mode)
    (fun s v => { s with fips_mode := some v })
    (fun s =>
      match get_aws_regionS s with
      | Except.ok (r, s1) =>
        match s1.config.val_str "FIPS_MODE" false true
            (some (if LambdaConfig.isGovRegion r then "on" else "off")) with
        | Except.ok v => Except.ok (LambdaConfig.coerce_bool v, s1)
        | Except.error e => Except.error e
      | Except.error e => Except.error e)

/-- Memoized `get_global_prefix`. -/
def get_global_pfxS : ConfigState → Except ConfigError (String × ConfigState) :=
  memoize (fun s => s.global_pfx)
    (fun s v => { s with global_pfx := some v })
    (fun s =>
      match s.config.val_str "GLOBAL_PREFIX" true false none with
      | Except.ok v => Except.ok (v, s)
      | Except.error e => Except.error e)

/-- Memoized `get_environment`. -/
def get_environmentS : ConfigState → Except ConfigError (String × ConfigState) :=
  memoize (fun s => s.environment)
    (fun s v => { s with environment := some v })
    (fun s =>
      match s.config.val_str "ENVIRONMENT" true false none with
      | Except.ok v => Except.ok (v, s)
      | Except.error e => Except.error e)

/-- Memoized `get_stack_name`. -/
def get_stack_nameS : ConfigState → Except ConfigError (String × ConfigState) :=
  memoize (fun s => s.stack_name)
    (fun s v => { s with stack_name := some v })
    (fun s =>
      match s.config.val_str "STACK_NAME" true false none with
      | Except.ok v => Except.ok (v, s)
      | Except.error e => Except.error e)

/-- Memoized `get_log_archive_mode`. -/
def get_log_archive_modeS : ConfigState → Except ConfigError (String × ConfigState) :=
  memoize (fun s => s.log_archive_mode)
    (fun s v => { s with log_archive_mode := some v })
    (fun s =>
      match s.config.val_str "LOG_ARCHIVE_MODE" true false none with
      | Except.ok v => Except.ok (v, s)
      | Except.error e => Except.error e)

/-- Memoized `get_log_kms_key_id` (checks the memoized archive mode
first). -/
def get_log_kms_key_idS : ConfigState → Except ConfigError (String × ConfigState) :=
  memoize (fun s => s.log_kms_key_id)
    (fun s v => { s with log_kms_key_id := some v })
    (fun s =>
      match get_log_archive_modeS s with
      | Except.ok (m, s1) =>
        if m ≠ "s3" then
          Except.error (ConfigError.invalidState
            "log_kms_key_id cannot be used when log_archive_mode is not \"s3\"")
        else
          match s1.config.val_str "LOG_KMS_KEY_ID" false false none with
          | Except.ok v => Except.ok (v, s1)
          | Except.error e => Except.error e
      | Except.error e => Except.error e)

/-- Memoized `get_notification_arn`. -/
def get_notification_arnS : ConfigState → Except ConfigError (String × ConfigState) :=
  memoize (fun s => s.notification_arn)
    (fun s v => { s with notification_arn := some v })
    (fun s =>
      match s.config.val_str "NOTIFICATION_ARN" false false none with
      | Except.ok v => Except.ok (v, s)
      | Except.error e => Except.error e)

/-- One optional segment in the stateful builders, threading the cache
state through the memoized getter when the flag is set. -/
def segIfS (flag : Bool) (g : ConfigState → Except ConfigError (String × ConfigState))
    (s : ConfigState) : Except ConfigError (List String × ConfigState) :=
  if flag then
    match g s with
    | Except.ok (v, s1) => Except.ok ((if 0 < v.length then [v] else []), s1)
    | Except.error e => Except.error e
  else Except.ok ([], s)

/-- Stateful `build_bucket_name` (the memoized getters fill caches). -/
def build_bucket_nameS (s : ConfigState) (name : String) (igp ian ie : Bool) :
    Except ConfigError (String × ConfigState) :=
  match segIfS igp get_global_pfxS s with
  | Except.error e => Except.error e
  | Except.ok (l1, s1) =>
    match segIfS ian get_application_nameS s1 with
    | Except.error e => Except.error e
    | Except.ok (l2, s2) =>
      match segIfS ie get_environmentS s2 with
      | Except.error e => Except.error e
      | Except.ok (l3, s3) => Except.ok (joinChunks "-" (l1 ++ l2 ++ l3 ++ [name]), s3)

/-- Memoized `get_log_bucket_name` (Python computes the
`build_bucket_name('logs')` fallback before the lookup). -/
def get_log_bucket_nameS : ConfigState → Except ConfigError (String × ConfigState) :=
  memoize (fun s => s.log_bucket)
    (fun s v => { s with log_bucket := some v })
    (fun s =>
      match build_bucket_nameS s "logs" true true false with
      | Except.ok (bn, s1) =>
        match s1.config.val_str "LOG_BUCKET_NAME" true false (some bn) with
        | Except.ok v => Except.ok (v, s1)
        | Except.error e => Except.error e
      | Except.error e => Except.error e)

/-- Memoization contract of a derived getter: once a call has produced a
value, calling again on the resulting instance returns the identical value
with no further state change, even after the underlying environment and
override mappings (the `config` component) have been replaced. -/
def memoStable {α : Type} (g : ConfigState → Except ConfigError (α × ConfigState)) : Prop :=
  ∀ (s : ConfigState) (v : α) (s' : ConfigState), g s = Except.ok (v, s') →
    g s' = Except.ok (v, s') ∧
    ∀ c' : LambdaConfig,
      g { s' with config := c' } = Except.ok (v, { s' with config := c' })

/-! ## Concrete instances used by the claims -/

/-- An instance with an empty environment and no overrides. -/
def cfgEmpty : LambdaConfig := ⟨"test", [], [], []⟩

/-- The naming environment of the repository's builder tests (with
`ENVIRONMENT` set to `dev`, as in the spec's hierarchical example). -/
def cfgNaming : LambdaConfig :=
  ⟨"test", [], [],
   [("GLOBAL_PREFIX", "test"), ("APPLICATION_NAME", "myappname"),
    ("ENVIRONMENT", "dev"), ("STACK_NAME", "stack-a")]⟩

/-- A setting defined in every source at once, with distinct values. -/
def cfgLayers : LambdaConfig :=
  ⟨"scriptA", [("K", "glob")], [("scriptA", [("K", "lam")])], [("K", "env")]⟩

/-- `cfgLayers` without its caller-specific override. -/
def cfgLayersGlob : LambdaConfig := ⟨"scriptA", [("K", "glob")], [], [("K", "env")]⟩

/-- `cfgLayersGlob` without its global override. -/
def cfgLayersEnv : LambdaConfig := ⟨"scriptA", [], [], [("K", "env")]⟩

/-- GovCloud west region, `FIPS_MODE` unset. -/
def cfgGovWest : LambdaConfig := ⟨"test", [], [], [("AWS_REGION", "us-gov-west-1")]⟩

/-- GovCloud east region, `FIPS_MODE` unset. -/
def cfgGovEast : LambdaConfig := ⟨"test", [], [], [("AWS_REGION", "us-gov-east-1")]⟩

/-- Commercial region, `FIPS_MODE` unset. -/
def cfgUsEast : LambdaConfig := ⟨"test", [], [], [("AWS_REGION", "us-east-1")]⟩

/-- Commercial region with `FIPS_MODE` explicitly `on`. -/
def cfgUsEastFips : LambdaConfig :=
  ⟨"test", [], [], [("AWS_REGION", "us-east-1"), ("FIPS_MODE", "on")]⟩

/-- `FIPS_MODE` explicitly set but no region anywhere. -/
def cfgFipsNoRegion : LambdaConfig := ⟨"test", [], [], [("FIPS_MODE", "on")]⟩

/-- Archive mode `stdout` set explicitly. -/
def cfgStdout : LambdaConfig := ⟨"test", [], [], [("LOG_ARCHIVE_MODE", "stdout")]⟩

/-- Archive mode `s3` with a key configured. -/
def cfgS3Key : LambdaConfig :=
  ⟨"test", [], [], [("LOG_ARCHIVE_MODE", "s3"), ("LOG_KMS_KEY_ID", "testvalue")]⟩

/-- An out-of-domain `DEBUG_MODE` value. -/
def cfgBadDebug : LambdaConfig := ⟨"test", [], [], [("DEBUG_MODE", "nonsense")]⟩

/-- The naming environment without `ENVIRONMENT`, which therefore
resolves to the empty-string default. -/
def cfgNoEnv : LambdaConfig :=
  ⟨"test", [], [],
   [("GLOBAL_PREFIX", "test"), ("APPLICATION_NAME", "myappname"),
    ("STACK_NAME", "stack-a")]⟩

/-- An environment defining only `APPLICATION_NAME`. -/
def cfgApp : LambdaConfig := ⟨"test", [], [], [("APPLICATION_NAME", "test")]⟩

/-- `cfgApp`'s instance after `get_application_name` has run once. -/
def cachedApp : ConfigState :=
  { initState cfgApp with application_name := some "test" }

/-! ## Helper lemmas -/

theorem joinChunks_cons_ne (sep x : String) (M : List String) (h : M ≠ []) :
    joinChunks sep (x :: M) = x ++ sep ++ joinChunks sep M := by
  cases M with
  | nil => exact absurd rfl h
  | cons y r => rfl

theorem joinChunks_append (sep : String) (segs : List String) (t0 : String)
    (trest : List String) :
    joinChunks sep (segs ++ t0 :: trest) = foldSep sep segs ++ joinChunks sep (t0 :: trest) := by
  induction segs with
  | nil => simp [foldSep, String.empty_append]
  | cons p rest ih =>
    have hne : rest ++ t0 :: trest ≠ [] := by simp
    rw [List.cons_append, joinChunks_cons_ne sep p _ hne, ih]
    simp [foldSep, String.append_assoc]

theorem legacy_join (segs : List String) (name : String) :
    joinChunks "-" (segs ++ ["ssm", name]) = legacyNameFromSpec segs name := by
  rw [joinChunks_append "-" segs "ssm" [name]]
  show foldSep "-" segs ++ ("ssm-" ++ name) = foldSep "-" segs ++ "ssm-" ++ name
  rw [String.append_assoc]

theorem hier_join_some (segs : List String) (n : String) :
    joinChunks "/" ("" :: (segs ++ LambdaConfig.hierTail (some n))) = hierNameFromSpec segs (some n) := by
  rw [show ("" :: (segs ++ LambdaConfig.hierTail (some n))) = (("" :: segs) ++ ["ssm", n]) from rfl,
    joinChunks_append "/" ("" :: segs) "ssm" [n]]
  show foldSep "/" ("" :: segs) ++ ("ssm/" ++ n) = "/" ++ foldSep "/" segs ++ "ssm/" ++ n
  simp [foldSep, String.append_assoc, String.empty_append]

theorem hier_join_none (segs : List String) :
    joinChunks "/" ("" :: (segs ++ LambdaConfig.hierTail none)) = hierNameFromSpec segs none := by
  rw [show ("" :: (segs ++ LambdaConfig.hierTail none)) = (("" :: segs) ++ "" :: []) from rfl,
    joinChunks_append "/" ("" :: segs) "" []]
  show foldSep "/" ("" :: segs) ++ "" = "/" ++ foldSep "/" segs
  simp [foldSep, String.append_assoc, String.empty_append, String.append_empty]

theorem bucket_join (segs : List String) (name : String) :
    joinChunks "-" (segs ++ [name]) = bucketNameFromSpec segs name := by
  rw [joinChunks_append "-" segs name []]
  rfl

theorem get_val_eq_firstHit (c : LambdaConfig) (name : String) (d : Option String) :
    c.get_val name d =
      (match firstHit (sourceList c) name with
       | some v => Except.ok v
       | none =>
         match d with
         | some v => Except.ok v
         | none => Except.error (ConfigError.missingConfiguration name)) := by
  cases h1 : (alistFind c.script_name c.lambda_overrides).bind (fun m => alistFind name m) <;>
    cases h2 : alistFind name c.overrides <;>
      cases h3 : alistFind name c.env <;>
        cases h4 : alistFind name defaults <;>
          simp [LambdaConfig.get_val, sourceList, firstHit, h1, h2, h3, h4]

theorem get_val_of_hit (c : LambdaConfig) (name : String) (d : Option String) (v : String)
    (h : sourceLookup c name = some v) : c.get_val name d = Except.ok v := by
  rw [get_val_eq_firstHit]
  rw [sourceLookup] at h
  rw [h]

theorem get_val_of_miss (c : LambdaConfig) (name : String) (d : Option String)
    (h : sourceLookup c name = none) :
    c.get_val name d =
      (match d with
       | some v => Except.ok v
       | none => Except.error (ConfigError.missingConfiguration name)) := by
  rw [get_val_eq_firstHit]
  rw [sourceLookup] at h
  rw [h]

theorem segIf_ok (f : Bool) (v : String) :
    LambdaConfig.segIf f (Except.ok v) =
      Except.ok (if f ∧ 0 < v.length then [v] else []) := by
  cases f <;> simp [LambdaConfig.segIf]

theorem build_legacy_eq (c : LambdaConfig) (gp an ev sn : String)
    (hgp : c.get_global_pfx = Except.ok gp)
    (han : c.get_application_name = Except.ok an)
    (hev : c.get_environment = Except.ok ev)
    (hsn : c.get_stack_name = Except.ok sn)
    (name : String) (igp ian ie isn : Bool) :
    c.build_legacy_ssm_param_name name igp ian ie isn =
      Except.ok (joinChunks "-"
        (selectedSegs [(igp, gp), (ian, an), (ie, ev), (isn, sn)] ++ ["ssm", name])) := by
  simp [LambdaConfig.build_legacy_ssm_param_name, hgp, han, hev, hsn, segIf_ok, selectedSegs,
    List.append_assoc]

theorem build_ssm_eq (c : LambdaConfig) (gp an ev sn : String)
    (hgp : c.get_global_pfx = Except.ok gp)
    (han : c.get_application_name = Except.ok an)
    (hev : c.get_environment = Except.ok ev)
    (hsn : c.get_stack_name = Except.ok sn)
    (name : Option String) (igp ian ie isn : Bool) :
    c.build_ssm_param_name name igp ian ie isn =
      Except.ok (joinChunks "/"
        ("" :: (selectedSegs [(igp, gp), (ian, an), (ie, ev), (isn, sn)] ++
          LambdaConfig.hierTail name))) := by
  simp [LambdaConfig.build_ssm_param_name, hgp, han, hev, hsn, segIf_ok, selectedSegs,
    List.append_assoc]

theorem val_str_eq_of_get (c : LambdaConfig) (name : String) (tl bc : Bool)
    (d : Option String) (v : String) (h : c.get_val name d = Except.ok v) :
    c.val_str name tl bc d =
      (match LambdaConfig.validate_val name (if tl || bc then pyLower v else v) with
       | Except.error e => Except.error e
       | Except.ok _ => Except.ok (if tl || bc then pyLower v else v)) := by
  unfold LambdaConfig.val_str
  rw [h]

theorem val_str_err (c : LambdaConfig) (name : String) (tl bc : Bool)
    (d : Option String) (e : ConfigError) (h : c.get_val name d = Except.error e) :
    c.val_str name tl bc d = Except.error e := by
  unfold LambdaConfig.val_str
  rw [h]

theorem memoize_stable {α : Type} (read : ConfigState → Option α)
    (write : ConfigState → α → ConfigState)
    (compute : ConfigState → Except ConfigError (α × ConfigState))
    (hrw : ∀ t w, read (write t w) = some w)
    (hcfg : ∀ t c', read { t with config := c' } = read t) :
    memoStable (memoize read write compute) := by
  intro s v s' h
  have hread : read s' = some v := by
    cases hr : read s with
    | some w =>
      simp only [memoize, hr, Except.ok.injEq, Prod.mk.injEq] at h
      rw [← h.2, hr, h.1]
    | none =>
      simp only [memoize, hr] at h
      cases hc : compute s with
      | ok p =>
        obtain ⟨w, s1⟩ := p
        rw [hc] at h
        simp only [Except.ok.injEq, Prod.mk.injEq] at h
        rw [← h.2, hrw, h.1]
      | error e =>
        rw [hc] at h
        exact Except.noConfusion h
  refine ⟨?_, ?_⟩
  · unfold memoize
    rw [hread]
  · intro c'
    unfold memoize
    rw [hcfg s' c', hread]

theorem build_bucket_eq (c : LambdaConfig) (gp an ev : String)
    (hgp : c.get_global_pfx = Except.ok gp)
    (han : c.get_application_name = Except.ok an)
    (hev : c.get_environment = Except.ok ev)
    (name : String) (igp ian ie : Bool) :
    c.build_bucket_name name igp ian ie =
      Except.ok (joinChunks "-"
        (selectedSegs [(igp, gp), (ian, an), (ie, ev)] ++ [name])) := by
  simp [LambdaConfig.build_bucket_name, hgp, han, hev, segIf_ok, selectedSegs,
    List.append_assoc]

theorem stable_application_name : memoStable get_application_nameS := by
  unfold get_application_nameS
  exact memoize_stable _ _ _ (fun t w => rfl) (fun t c' => rfl)

theorem stable_debug_mode : memoStable get_debug_modeS := by
  unfold get_debug_modeS
  exact memoize_stable _ _ _ (fun t w => rfl) (fun t c' => rfl)

theorem stable_log_level : memoStable get_log_levelS := by
  unfold get_log_levelS
  exact memoize_stable _ _ _ (fun t w => rfl) (fun t c' => rfl)

theorem stable_log_path : memoStable get_log_pathS := by
  unfold get_log_pathS
  exact memoize_stable _ _ _ (fun t w => rfl) (fun t c' => rfl)

theorem stable_safe_mode : memoStable get_safe_modeS := by
  unfold get_safe_modeS
  exact memoize_stable _ _ _ (fun t w => rfl) (fun t c' => rfl)

theorem stable_aws_region : memoStable get_aws_regionS := by
  unfold get_aws_regionS
  exact memoize_stable _ _ _ (fun t w => rfl) (fun t c' => rfl)

theorem stable_fips_mode : memoStable get_fips_modeS := by
  unfold get_fips_modeS
  exact memoize_stable _ _ _ (fun t w => rfl) (fun t c' => rfl)

theorem stable_global_pfx : memoStable get_global_pfxS := by
  unfold get_global_pfxS
  exact memoize_stable _ _ _ (fun t w => rfl) (fun t c' => rfl)

theorem stable_environment : memoStable get_environmentS := by
  unfold get_environmentS
  exact memoize_stable _ _ _ (fun t w => rfl) (fun t c' => rfl)

theorem stable_stack_name : memoStable get_stack_nameS := by
  unfold get_stack_nameS
  exact memoize_stable _ _ _ (fun t w => rfl) (fun t c' => rfl)

theorem stable_log_archive_mode : memoStable get_log_archive_modeS := by
  unfold get_log_archive_modeS
  exact memoize_stable _ _ _ (fun t w => rfl) (fun t c' => rfl)

theorem stable_log_kms_key_id : memoStable get_log_kms_key_idS := by
  unfold get_log_kms_key_idS
  exact memoize_stable _ _ _ (fun t w => rfl) (fun t c' => rfl)

theorem stable_notification_arn : memoStable get_notification_arnS := by
  unfold get_notification_arnS
  exact memoize_stable _ _ _ (fun t w => rfl) (fun t c' => rfl)

theorem stable_log_bucket_name : memoStable get_log_bucket_nameS := by
  unfold get_log_bucket_nameS
  exact memoize_stable _ _ _ (fun t w => rfl) (fun t c' => rfl)

/-! ## Claim theorems -/

/-- C1: the resolve primitive returns the value from the highest-priority
source containing the name, trying the caller-specific override mapping,
the global override mapping, the environment mapping, and the built-in
default mapping in order, then the caller-supplied fallback when it is
non-null; when every source misses and no fallback was supplied it fails
with a `MissingConfiguration` error naming the setting (e.g. `AWS_REGION`
against an empty environment).  The closed conjuncts exercise each
priority level on a key defined in every source at once. -/
theorem C1_resolution_chain :
    (∀ (c : LambdaConfig) (name : String) (d : Option String),
      c.get_val name d =
        (match firstHit (sourceList c) name with
         | some v => Except.ok v
         | none =>
           match d with
           | some v => Except.ok v
           | none => Except.error (ConfigError.missingConfiguration name)))
    ∧ cfgLayers.get_val "K" (some "fb") = Except.ok "lam"
    ∧ cfgLayersGlob.get_val "K" (some "fb") = Except.ok "glob"
    ∧ cfgLayersEnv.get_val "K" (some "fb") = Except.ok "env"
    ∧ cfgEmpty.get_val "DEBUG_MODE" (some "fb") = Except.ok "off"
    ∧ cfgEmpty.get_val "K" (some "fb") = Except.ok "fb"
    ∧ cfgEmpty.get_val "AWS_REGION" none =
        Except.error (ConfigError.missingConfiguration "AWS_REGION")
    ∧ cfgEmpty.val "AWS_REGION" true false none =
        Except.error (ConfigError.missingConfiguration "AWS_REGION") :=
  ⟨get_val_eq_firstHit, rfl, rfl, rfl, rfl, rfl, rfl, rfl⟩

/-- C2 counterexample: with prefix `test`, app `myappname`, environment
`dev`, stack `stack-a` and all four inclusion flags set, the legacy name is
NOT `test-myappname-stack-a-ssm-param1` (the environment segment is
included). -/
theorem C2_counterexample :
    cfgNaming.build_legacy_ssm_param_name "param1" true true true true ≠
      Except.ok "test-myappname-stack-a-ssm-param1" := by
  intro h
  have h2 : "test-myappname-dev-stack-a-ssm-param1" = "test-myappname-stack-a-ssm-param1" :=
    Except.ok.inj ((rfl :
      cfgNaming.build_legacy_ssm_param_name "param1" true true true true =
        Except.ok "test-myappname-dev-stack-a-ssm-param1") ▸ h)
  exact absurd h2 (by decide)

/-- C2 (amended): with those inputs and all four inclusion flags set the
legacy name is `test-myappname-dev-stack-a-ssm-param1`; the string the
claim expected arises when the environment segment is excluded (the
repository test leaves `ENVIRONMENT` unset and passes no environment
flag); with all flags off the result is `ssm-param1`; in general the
legacy name follows the dash-join formula
`{prefix-}{app-}{env-}{stack-}ssm-name`. -/
theorem C2_legacy_name :
    cfgNaming.build_legacy_ssm_param_name "param1" true true true true =
      Except.ok "test-myappname-dev-stack-a-ssm-param1"
    ∧ cfgNaming.build_legacy_ssm_param_name "param1" true true false true =
      Except.ok "test-myappname-stack-a-ssm-param1"
    ∧ cfgNaming.build_legacy_ssm_param_name "param1" false false false false =
      Except.ok "ssm-param1"
    ∧ ∀ (c : LambdaConfig) (gp an ev sn name : String) (igp ian ie isn : Bool),
        c.get_global_pfx = Except.ok gp →
        c.get_application_name = Except.ok an →
        c.get_environment = Except.ok ev →
        c.get_stack_name = Except.ok sn →
        c.build_legacy_ssm_param_name name igp ian ie isn =
          Except.ok (legacyNameFromSpec
            (selectedSegs [(igp, gp), (ian, an), (ie, ev), (isn, sn)]) name) := by
  refine ⟨rfl, rfl, rfl, ?_⟩
  intro c gp an ev sn name igp ian ie isn hgp han hev hsn
  rw [build_legacy_eq c gp an ev sn hgp han hev hsn name igp ian ie isn, legacy_join]

/-- C2 witness: the general dash-join formula instantiated on the test
environment with only the app-name and stack-name segments included. -/
theorem C2_legacy_name_witness :
    cfgNaming.build_legacy_ssm_param_name "w2" false true false true =
      Except.ok (legacyNameFromSpec
        (selectedSegs [(false, "test"), (true, "myappname"), (false, "dev"), (true, "stack-a")])
        "w2") :=
  C2_legacy_name.2.2.2 cfgNaming "test" "myappname" "dev" "stack-a" "w2"
    false true false true rfl rfl rfl rfl

/-- C3: hierarchical names follow
`/{prefix/}{app/}{env/}{stack/}ssm/name` (leading slash, `ssm` marker
before the terminal name), and with `name` omitted
`/{prefix/}{app/}{env/}{stack/}` (trailing slash, no marker); in
particular the three examples from the spec hold on the test
environment. -/
theorem C3_hierarchical_name :
    (∀ (c : LambdaConfig) (gp an ev sn n : String) (igp ian ie isn : Bool),
      c.get_global_pfx = Except.ok gp →
      c.get_application_name = Except.ok an →
      c.get_environment = Except.ok ev →
      c.get_stack_name = Except.ok sn →
      c.build_ssm_param_name (some n) igp ian ie isn =
        Except.ok (hierNameFromSpec
          (selectedSegs [(igp, gp), (ian, an), (ie, ev), (isn, sn)]) (some n)))
    ∧ (∀ (c : LambdaConfig) (gp an ev sn : String) (igp ian ie isn : Bool),
      c.get_global_pfx = Except.ok gp →
      c.get_application_name = Except.ok an →
      c.get_environment = Except.ok ev →
      c.get_stack_name = Except.ok sn →
      c.build_ssm_param_name none igp ian ie isn =
        Except.ok (hierNameFromSpec
          (selectedSegs [(igp, gp), (ian, an), (ie, ev), (isn, sn)]) none))
    ∧ cfgNaming.build_ssm_param_name (some "param1") true true true true =
        Except.ok "/test/myappname/dev/stack-a/ssm/param1"
    ∧ cfgNaming.build_ssm_param_name none true true true true =
        Except.ok "/test/myappname/dev/stack-a/"
    ∧ cfgNaming.build_ssm_param_name (some "param8") false false false false =
        Except.ok "/ssm/param8" := by
  refine ⟨?_, ?_, rfl, rfl, rfl⟩
  · intro c gp an ev sn n igp ian ie isn hgp han hev hsn
    rw [build_ssm_eq c gp an ev sn hgp han hev hsn (some n) igp ian ie isn, hier_join_some]
  · intro c gp an ev sn igp ian ie isn hgp han hev hsn
    rw [build_ssm_eq c gp an ev sn hgp han hev hsn none igp ian ie isn, hier_join_none]

/-- C3 witness: both shapes of the general statement instantiated on the
test environment. -/
theorem C3_hierarchical_name_witness :
    cfgNaming.build_ssm_param_name (some "w3") true false true false =
      Except.ok (hierNameFromSpec
        (selectedSegs [(true, "test"), (false, "myappname"), (true, "dev"), (false, "stack-a")])
        (some "w3"))
    ∧ cfgNaming.build_ssm_param_name none true true false false =
      Except.ok (hierNameFromSpec
        (selectedSegs [(true, "test"), (true, "myappname"), (false, "dev"), (false, "stack-a")])
        none) :=
  ⟨C3_hierarchical_name.1 cfgNaming "test" "myappname" "dev" "stack-a" "w3"
      true false true false rfl rfl rfl rfl,
   C3_hierarchical_name.2.1 cfgNaming "test" "myappname" "dev" "stack-a"
      true true false false rfl rfl rfl rfl⟩

/-- C4: when `FIPS_MODE` is absent from every source, `get_fips_mode`
returns exactly the GovCloud test of the resolved region
(`us-gov-(west|east)-<digits>`); when `FIPS_MODE` is present in some
source with an in-domain value, the explicit value wins (its boolean
coercion is returned regardless of the region); concretely,
`us-gov-west-1` and `us-gov-east-1` auto-detect to true, `us-east-1` to
false, and explicit `FIPS_MODE=on` with `us-east-1` gives true. -/
theorem C4_fips_mode :
    (∀ (c : LambdaConfig) (r : String),
      sourceLookup c "FIPS_MODE" = none →
      c.get_aws_region = Except.ok r →
      c.get_fips_mode = Except.ok (LambdaConfig.isGovRegion r))
    ∧ (∀ (c : LambdaConfig) (r v : String),
      sourceLookup c "FIPS_MODE" = some v →
      memStr (pyLower v) ["on", "off", "true", "false", "yes", "no"] = true →
      c.get_aws_region = Except.ok r →
      c.get_fips_mode = Except.ok (LambdaConfig.coerce_bool (pyLower v)))
    ∧ LambdaConfig.isGovRegion "us-gov-west-1" = true
    ∧ LambdaConfig.isGovRegion "us-gov-east-1" = true
    ∧ LambdaConfig.isGovRegion "us-east-1" = false
    ∧ cfgGovWest.get_fips_mode = Except.ok true
    ∧ cfgGovEast.get_fips_mode = Except.ok true
    ∧ cfgUsEast.get_fips_mode = Except.ok false
    ∧ cfgUsEastFips.get_fips_mode = Except.ok true := by
  refine ⟨?_, ?_, rfl, rfl, rfl, rfl, rfl, rfl, rfl⟩
  · intro c r hmiss hreg
    unfold LambdaConfig.get_fips_mode
    rw [hreg]
    show (match c.val_str "FIPS_MODE" false true
        (some (if LambdaConfig.isGovRegion r then "on" else "off")) with
      | Except.error e => Except.error e
      | Except.ok v => Except.ok (LambdaConfig.coerce_bool v)) =
      Except.ok (LambdaConfig.isGovRegion r)
    cases hg : LambdaConfig.isGovRegion r with
    | true =>
      have hget : c.get_val "FIPS_MODE" (some "on") = Except.ok "on" :=
        get_val_of_miss c "FIPS_MODE" (some "on") hmiss
      have hv : c.val_str "FIPS_MODE" false true (some "on") = Except.ok "on" := by
        rw [val_str_eq_of_get c "FIPS_MODE" false true (some "on") "on" hget]
        rfl
      rw [show (if (true : Bool) = true then "on" else "off") = "on" from rfl, hv]
      rfl
    | false =>
      have hget : c.get_val "FIPS_MODE" (some "off") = Except.ok "off" :=
        get_val_of_miss c "FIPS_MODE" (some "off") hmiss
      have hv : c.val_str "FIPS_MODE" false true (some "off") = Except.ok "off" := by
        rw [val_str_eq_of_get c "FIPS_MODE" false true (some "off") "off" hget]
        rfl
      rw [show (if (false : Bool) = true then "on" else "off") = "off" from rfl, hv]
      rfl
  · intro c r v hhit hdom hreg
    have hget : c.get_val "FIPS_MODE"
        (some (if LambdaConfig.isGovRegion r then "on" else "off")) = Except.ok v :=
      get_val_of_hit c "FIPS_MODE" _ v hhit
    have hval : LambdaConfig.validate_val "FIPS_MODE" (pyLower v) = Except.ok () := by
      unfold LambdaConfig.validate_val
      rw [show alistFind "FIPS_MODE" validationsMap =
        some ["on", "off", "true", "false", "yes", "no"] from rfl]
      show (if memStr (pyLower v) ["on", "off", "true", "false", "yes", "no"] = true
        then Except.ok () else Except.error (ConfigError.invalidConfigurationValue
          "FIPS_MODE" ["on", "off", "true", "false", "yes", "no"])) = Except.ok ()
      rw [hdom]
      rfl
    have hv : c.val_str "FIPS_MODE" false true
        (some (if LambdaConfig.isGovRegion r then "on" else "off")) =
        Except.ok (pyLower v) := by
      rw [val_str_eq_of_get c "FIPS_MODE" false true _ v hget]
      show (match LambdaConfig.validate_val "FIPS_MODE" (pyLower v) with
        | Except.error e => Except.error e
        | Except.ok _ => Except.ok (pyLower v)) = Except.ok (pyLower v)
      rw [hval]
    unfold LambdaConfig.get_fips_mode
    rw [hreg]
    show (match c.val_str "FIPS_MODE" false true
        (some (if LambdaConfig.isGovRegion r then "on" else "off")) with
      | Except.error e => Except.error e
      | Except.ok v2 => Except.ok (LambdaConfig.coerce_bool v2)) =
      Except.ok (LambdaConfig.coerce_bool (pyLower v))
    rw [hv]

/-- C4 witness: both general parts instantiated — auto-detection on the
GovCloud-west environment, and an explicit in-domain `FIPS_MODE=on`
overriding the commercial region `us-east-1`. -/
theorem C4_fips_mode_witness :
    cfgGovWest.get_fips_mode = Except.ok (LambdaConfig.isGovRegion "us-gov-west-1")
    ∧ cfgUsEastFips.get_fips_mode = Except.ok (LambdaConfig.coerce_bool (pyLower "on")) :=
  ⟨C4_fips_mode.1 cfgGovWest "us-gov-west-1" rfl rfl,
   C4_fips_mode.2.1 cfgUsEastFips "us-east-1" "on" rfl rfl rfl⟩

/-- C5: for every setting with a registered enumerated domain
(`DEBUG_MODE`, `SAFE_MODE`, `FIPS_MODE`, `ENABLE_NOTIFICATIONS` over
{on, off, true, false, yes, no}; `LOG_ARCHIVE_MODE` over {s3, stdout}),
`val` fails with `InvalidConfigurationValue` naming the setting and the
accepted values whenever the resolved value (lower-cased first when
lower-casing or boolean coercion was requested) is outside the domain,
and succeeds on every in-domain value. -/
theorem C5_enumerated_domains :
    alistFind "DEBUG_MODE" validationsMap = some ["on", "off", "true", "false", "yes", "no"]
    ∧ alistFind "SAFE_MODE" validationsMap = some ["on", "off", "true", "false", "yes", "no"]
    ∧ alistFind "FIPS_MODE" validationsMap = some ["on", "off", "true", "false", "yes", "no"]
    ∧ alistFind "ENABLE_NOTIFICATIONS" validationsMap =
        some ["on", "off", "true", "false", "yes", "no"]
    ∧ alistFind "LOG_ARCHIVE_MODE" validationsMap = some ["s3", "stdout"]
    ∧ ∀ (c : LambdaConfig) (name : String) (tl bc : Bool) (d : Option String)
        (v w : String) (doms : List String),
        c.get_val name d = Except.ok v →
        alistFind name validationsMap = some doms →
        (if tl || bc then pyLower v else v) = w →
        (memStr w doms = false →
          c.val name tl bc d =
            Except.error (ConfigError.invalidConfigurationValue name doms))
        ∧ (memStr w doms = true →
          c.val name tl bc d =
            Except.ok (if bc then LambdaConfig.ConfigValue.bool (LambdaConfig.coerce_bool w)
              else LambdaConfig.ConfigValue.str w)) := by
  refine ⟨rfl, rfl, rfl, rfl, rfl, ?_⟩
  intro c name tl bc d v w doms hget hdoms hw
  have hbase := val_str_eq_of_get c name tl bc d v hget
  rw [hw] at hbase
  unfold LambdaConfig.validate_val at hbase
  rw [hdoms] at hbase
  have hbase2 : c.val_str name tl bc d =
      (match (if memStr w doms = true then Except.ok ()
          else Except.error (ConfigError.invalidConfigurationValue name doms) :
            Except ConfigError Unit) with
       | Except.error e => Except.error e
       | Except.ok _ => Except.ok w) := hbase
  constructor
  · intro hmem
    rw [hmem] at hbase2
    have hfin : c.val_str name tl bc d =
        Except.error (ConfigError.invalidConfigurationValue name doms) := hbase2
    unfold LambdaConfig.val
    rw [hfin]
  · intro hmem
    rw [hmem] at hbase2
    have hfin : c.val_str name tl bc d = Except.ok w := hbase2
    unfold LambdaConfig.val
    rw [hfin]

/-- C5 witness: on an empty environment, `DEBUG_MODE` resolves to the
in-domain default `off` (success side), and with `DEBUG_MODE=nonsense`
the out-of-domain value is rejected (failure side). -/
theorem C5_enumerated_domains_witness :
    cfgEmpty.val "DEBUG_MODE" false false none =
      Except.ok (LambdaConfig.ConfigValue.str "off")
    ∧ cfgBadDebug.val "DEBUG_MODE" false true none =
      Except.error (ConfigError.invalidConfigurationValue "DEBUG_MODE"
        ["on", "off", "true", "false", "yes", "no"]) :=
  ⟨(C5_enumerated_domains.2.2.2.2.2 cfgEmpty "DEBUG_MODE" false false none
      "off" "off" ["on", "off", "true", "false", "yes", "no"] rfl rfl rfl).2 rfl,
   (C5_enumerated_domains.2.2.2.2.2 cfgBadDebug "DEBUG_MODE" false true none
      "nonsense" "nonsense" ["on", "off", "true", "false", "yes", "no"] rfl rfl rfl).1 rfl⟩

/-- C6: whenever the lookup and validation of a boolean-coerced call
succeed, `val` returns a boolean — true exactly when the lower-cased
resolved string is one of `on`, `true`, `yes` — and the coercion step
itself never fails. -/
theorem C6_bool_coercion :
    ∀ (c : LambdaConfig) (name : String) (tl : Bool) (d : Option String) (v : String),
      c.val_str name tl true d = Except.ok v →
      c.val name tl true d = Except.ok (LambdaConfig.ConfigValue.bool (LambdaConfig.coerce_bool v))
      ∧ (LambdaConfig.coerce_bool v = true ↔ (v = "on" ∨ v = "true" ∨ v = "yes")) := by
  intro c name tl d v h
  constructor
  · unfold LambdaConfig.val
    rw [h]
    rfl
  · by_cases hv : v = "on" ∨ v = "true" ∨ v = "yes" <;>
      simp [LambdaConfig.coerce_bool, hv]

/-- C6 witness: on an empty environment `SAFE_MODE` resolves to `off`,
which coerces to boolean false. -/
theorem C6_bool_coercion_witness :
    cfgEmpty.val "SAFE_MODE" false true none =
      Except.ok (LambdaConfig.ConfigValue.bool (LambdaConfig.coerce_bool "off"))
    ∧ (LambdaConfig.coerce_bool "off" = true ↔
        ("off" = "on" ∨ "off" = "true" ∨ "off" = "yes")) :=
  C6_bool_coercion cfgEmpty "SAFE_MODE" false none "off" rfl

/-- C7: `get_log_kms_key_id` fails with `InvalidState` whenever the
resolved archive mode is anything other than `s3` (e.g. the `stdout`
environment), and when the mode is `s3` and `LOG_KMS_KEY_ID` is present
in some source it returns that key. -/
theorem C7_log_kms_key :
    (∀ (c : LambdaConfig) (m : String),
      c.get_log_archive_mode = Except.ok m →
      m ≠ "s3" →
      c.get_log_kms_key_id = Except.error (ConfigError.invalidState
        "log_kms_key_id cannot be used when log_archive_mode is not \"s3\""))
    ∧ (∀ (c : LambdaConfig) (k : String),
      c.get_log_archive_mode = Except.ok "s3" →
      sourceLookup c "LOG_KMS_KEY_ID" = some k →
      c.get_log_kms_key_id = Except.ok k)
    ∧ cfgStdout.get_log_kms_key_id = Except.error (ConfigError.invalidState
        "log_kms_key_id cannot be used when log_archive_mode is not \"s3\"")
    ∧ cfgS3Key.get_log_kms_key_id = Except.ok "testvalue" := by
  refine ⟨?_, ?_, rfl, rfl⟩
  · intro c m hm hne
    simp only [LambdaConfig.get_log_kms_key_id, hm]
    rw [if_pos hne]
  · intro c k hm hk
    have hget : c.get_val "LOG_KMS_KEY_ID" none = Except.ok k :=
      get_val_of_hit c "LOG_KMS_KEY_ID" none k hk
    have hv : c.val_str "LOG_KMS_KEY_ID" false false none = Except.ok k := by
      rw [val_str_eq_of_get c "LOG_KMS_KEY_ID" false false none k hget]
      rfl
    simp only [LambdaConfig.get_log_kms_key_id, hm]
    rw [if_neg (by simp), hv]

/-- C7 witness: both general parts instantiated — the default `stdout`
archive mode of an empty environment forbids the key, and an `s3`
environment with the key set returns it. -/
theorem C7_log_kms_key_witness :
    cfgEmpty.get_log_kms_key_id = Except.error (ConfigError.invalidState
      "log_kms_key_id cannot be used when log_archive_mode is not \"s3\"")
    ∧ cfgS3Key.get_log_kms_key_id = Except.ok "testvalue" :=
  ⟨C7_log_kms_key.1 cfgEmpty "stdout" rfl (by decide),
   C7_log_kms_key.2.1 cfgS3Key "testvalue" rfl rfl⟩

/-- C8: in all three identifier builders, an included optional segment
whose resolved value is the empty string is omitted from the join rather
than rendered as an empty component (the sole fixed empty chunk being the
leading one of hierarchical names), and the segment order is global
prefix, application name, environment, stack name in every scheme: each
builder equals the plain join of `selectedSegs` (flag set and value
non-empty, in that fixed order) plus its scheme's terminal chunks.  The
closed conjuncts show an included but empty environment segment
disappearing from all three schemes. -/
theorem C8_empty_segments_omitted :
    (∀ (c : LambdaConfig) (gp an ev sn name : String) (igp ian ie isn : Bool),
      c.get_global_pfx = Except.ok gp →
      c.get_application_name = Except.ok an →
      c.get_environment = Except.ok ev →
      c.get_stack_name = Except.ok sn →
      c.build_legacy_ssm_param_name name igp ian ie isn =
        Except.ok (joinChunks "-"
          (selectedSegs [(igp, gp), (ian, an), (ie, ev), (isn, sn)] ++ ["ssm", name])))
    ∧ (∀ (c : LambdaConfig) (gp an ev sn : String) (name : Option String)
        (igp ian ie isn : Bool),
      c.get_global_pfx = Except.ok gp →
      c.get_application_name = Except.ok an →
      c.get_environment = Except.ok ev →
      c.get_stack_name = Except.ok sn →
      c.build_ssm_param_name name igp ian ie isn =
        Except.ok (joinChunks "/"
          ("" :: (selectedSegs [(igp, gp), (ian, an), (ie, ev), (isn, sn)] ++
            LambdaConfig.hierTail name))))
    ∧ (∀ (c : LambdaConfig) (gp an ev name : String) (igp ian ie : Bool),
      c.get_global_pfx = Except.ok gp →
      c.get_application_name = Except.ok an →
      c.get_environment = Except.ok ev →
      c.build_bucket_name name igp ian ie =
        Except.ok (joinChunks "-"
          (selectedSegs [(igp, gp), (ian, an), (ie, ev)] ++ [name])))
    ∧ cfgNoEnv.build_legacy_ssm_param_name "p" true true true true =
        Except.ok "test-myappname-stack-a-ssm-p"
    ∧ cfgNoEnv.build_ssm_param_name (some "p") true true true true =
        Except.ok "/test/myappname/stack-a/ssm/p"
    ∧ cfgNoEnv.build_bucket_name "b" true true true =
        Except.ok "test-myappname-b" := by
  refine ⟨?_, ?_, ?_, rfl, rfl, rfl⟩
  · intro c gp an ev sn name igp ian ie isn hgp han hev hsn
    exact build_legacy_eq c gp an ev sn hgp han hev hsn name igp ian ie isn
  · intro c gp an ev sn name igp ian ie isn hgp han hev hsn
    exact build_ssm_eq c gp an ev sn hgp han hev hsn name igp ian ie isn
  · intro c gp an ev name igp ian ie hgp han hev
    exact build_bucket_eq c gp an ev hgp han hev name igp ian ie

/-- C8 witness: the three general equations instantiated on the naming
environment, with every inclusion flag set and the environment value
`dev` non-empty. -/
theorem C8_empty_segments_omitted_witness :
    cfgNaming.build_legacy_ssm_param_name "w8" true true true true =
      Except.ok (joinChunks "-"
        (selectedSegs [(true, "test"), (true, "myappname"), (true, "dev"), (true, "stack-a")] ++
          ["ssm", "w8"]))
    ∧ cfgNaming.build_ssm_param_name (some "w8") true true true true =
      Except.ok (joinChunks "/"
        ("" :: (selectedSegs [(true, "test"), (true, "myappname"), (true, "dev"),
          (true, "stack-a")] ++ LambdaConfig.hierTail (some "w8"))))
    ∧ cfgNaming.build_bucket_name "w8" true true true =
      Except.ok (joinChunks "-"
        (selectedSegs [(true, "test"), (true, "myappname"), (true, "dev")] ++ ["w8"])) :=
  ⟨C8_empty_segments_omitted.1 cfgNaming "test" "myappname" "dev" "stack-a" "w8"
      true true true true rfl rfl rfl rfl,
   C8_empty_segments_omitted.2.1 cfgNaming "test" "myappname" "dev" "stack-a" (some "w8")
      true true true true rfl rfl rfl rfl,
   C8_empty_segments_omitted.2.2.1 cfgNaming "test" "myappname" "dev" "w8"
      true true true rfl rfl rfl⟩

/-- C9: every derived getter is memoized per instance: once a call has
produced a value, calling the getter again on the resulting instance
returns the identical value with no further state change, and replacing
the underlying environment/override mappings after the first access does
not change the value returned by subsequent calls. -/
theorem C9_memoized_getters :
    memoStable get_application_nameS ∧ memoStable get_debug_modeS ∧
    memoStable get_log_levelS ∧ memoStable get_log_pathS ∧
    memoStable get_safe_modeS ∧ memoStable get_aws_regionS ∧
    memoStable get_fips_modeS ∧ memoStable get_global_pfxS ∧
    memoStable get_environmentS ∧ memoStable get_stack_nameS ∧
    memoStable get_log_archive_modeS ∧ memoStable get_log_kms_key_idS ∧
    memoStable get_notification_arnS ∧ memoStable get_log_bucket_nameS :=
  ⟨stable_application_name, stable_debug_mode, stable_log_level, stable_log_path,
   stable_safe_mode, stable_aws_region, stable_fips_mode, stable_global_pfx,
   stable_environment, stable_stack_name, stable_log_archive_mode,
   stable_log_kms_key_id, stable_notification_arn, stable_log_bucket_name⟩

/-- C9 witness: a first `get_application_name` call on a fresh instance
caches `test`; the second call returns the identical value, and replacing
the instance's configuration with an empty one afterwards does not change
the cached result. -/
theorem C9_memoized_getters_witness :
    get_application_nameS (initState cfgApp) = Except.ok ("test", cachedApp)
    ∧ get_application_nameS cachedApp = Except.ok ("test", cachedApp)
    ∧ get_application_nameS { cachedApp with config := cfgEmpty } =
        Except.ok ("test", { cachedApp with config := cfgEmpty }) := by
  have h0 : get_application_nameS (initState cfgApp) = Except.ok ("test", cachedApp) := rfl
  have h := C9_memoized_getters.1 (initState cfgApp) "test" cachedApp h0
  exact ⟨h0, h.1, h.2 cfgEmpty⟩

/-- C10: `get_fips_mode` resolves `AWS_REGION` unconditionally before
consulting `FIPS_MODE`, so when `AWS_REGION` is absent from every source
it fails with `MissingConfiguration` for `AWS_REGION` even when
`FIPS_MODE` is explicitly set to a valid enumerated value (as in the
closed conjuncts). -/
theorem C10_region_before_fips :
    (∀ c : LambdaConfig, sourceLookup c "AWS_REGION" = none →
      c.get_fips_mode = Except.error (ConfigError.missingConfiguration "AWS_REGION"))
    ∧ cfgFipsNoRegion.get_fips_mode =
        Except.error (ConfigError.missingConfiguration "AWS_REGION")
    ∧ sourceLookup cfgFipsNoRegion "FIPS_MODE" = some "on" := by
  refine ⟨?_, rfl, rfl⟩
  intro c hmiss
  have hget : c.get_val "AWS_REGION" none =
      Except.error (ConfigError.missingConfiguration "AWS_REGION") :=
    get_val_of_miss c "AWS_REGION" none hmiss
  have hreg : c.get_aws_region = Except.error (ConfigError.missingConfiguration "AWS_REGION") := by
    unfold LambdaConfig.get_aws_region
    exact val_str_err c "AWS_REGION" true false none _ hget
  unfold LambdaConfig.get_fips_mode
  rw [hreg]

/-- C10 witness: the general statement applied to the environment that
sets only `FIPS_MODE=on`. -/
theorem C10_region_before_fips_witness :
    cfgFipsNoRegion.get_fips_mode =
      Except.error (ConfigError.missingConfiguration "AWS_REGION") :=
  C10_region_before_fips.1 cfgFipsNoRegion rfl

end CrimsonCore
